import Mathlib

/-!
Verification of the LSP diagnostic client (`tools/lsp_tool`): a shallow
embedding of the transport layer (`client.py`, class `LspClient`) and the
structural response validator (`utils.py`, function `validate_schema`),
with theorems settling the specified properties of the request-id
lifecycle, message framing, closed-stream detection and schema checking.

Python data values decoded from JSON are modelled by the inductive type
`Json`; Python dicts whose keys are strings are modelled as association
lists (first binding wins, as Python dicts cannot hold duplicate keys).
-/

/-- A JSON value as decoded by Python's `json` module: `None`, `bool`,
`int`, `str`, `list`, `dict` (string keys).  Float values do not occur in
any envelope this development reasons about and are not modelled. -/
inductive Json where
  | null
  | bool (b : Bool)
  | num (n : Int)
  | str (s : String)
  | arr (elems : List Json)
  | obj (fields : List (String × Json))
deriving Repr

mutual

/-- Structural equality of JSON values, mirroring Python `==` on values
decoded from JSON.  (Python's numeric cross-type equality such as
`1 == True` is not modelled; it cannot arise in the quantification domains
of the theorems below, where compared values are strings or keys.) -/
def beqJson : Json → Json → Bool
  | Json.null, Json.null => true
  | Json.bool a, Json.bool b => a == b
  | Json.num a, Json.num b => a == b
  | Json.str a, Json.str b => a == b
  | Json.arr a, Json.arr b => beqJsonList a b
  | Json.obj a, Json.obj b => beqJsonFields a b
  | _, _ => false

/-- Elementwise equality of JSON arrays. -/
def beqJsonList : List Json → List Json → Bool
  | [], [] => true
  | a :: as, b :: bs => beqJson a b && beqJsonList as bs
  | _, _ => false

/-- Elementwise equality of JSON object field lists. -/
def beqJsonFields : List (String × Json) → List (String × Json) → Bool
  | [], [] => true
  | (k1, v1) :: as, (k2, v2) :: bs => k1 == k2 && beqJson v1 v2 && beqJsonFields as bs
  | _, _ => false

end

instance : BEq Json := ⟨beqJson⟩

/-- A Python dict with string keys holding JSON values (envelopes and
schema descriptors are such dicts). -/
abbrev PyDict := List (String × Json)

/-- Python truthiness (`bool(x)`) of a JSON-decoded value: `None`, `False`,
`0`, `""`, `[]` and `{}` are falsy, everything else truthy. -/
def Json.truthy : Json → Bool
  | Json.null => false
  | Json.bool b => b
  | Json.num n => n != 0
  | Json.str s => s != ""
  | Json.arr elems => !elems.isEmpty
  | Json.obj fields => !fields.isEmpty

/-- Model of Python `d.get(k)`: the first binding of `k`, or `None`
(`Json.null`) when the key is absent.  As in Python, a key bound to `None`
and an absent key are indistinguishable through `get`. -/
def dictGet (d : PyDict) (k : String) : Json :=
  match d.find? (fun p => p.1 == k) with
  | some p => p.2
  | none => Json.null

/-- Model of Python `d.get(k, default)`. -/
def dictGetD (d : PyDict) (k : String) (v : Json) : Json :=
  match d.find? (fun p => p.1 == k) with
  | some p => p.2
  | none => v

/-!
Transport layer: class `LspClient` of `client.py`.  The socket field is
abstracted to the one observation the code makes of it, the check
`if not self.sock` (`sock` set to a socket object is truthy, `None` is
falsy), recorded as the boolean `sockSet`.  The request/notification
operations return the updated object state together with an `Except`
describing either the raised exception or the normal result, which mirrors
Python's in-place mutation of `self`.
-/

/-- Exceptions raised by the `LspClient` operations modelled here.
`notConnected` stands for `ConnectionError("Not connected")`. -/
inductive ClientError where
  | notConnected
deriving DecidableEq, Repr

/-- State of an `LspClient` object: `__init__` stores `host` and `port`,
sets `self.sock = None` and `self.request_id = 0`. -/
structure LspClient where
  host : String
  port : Nat
  sockSet : Bool
  request_id : Nat
deriving DecidableEq, Repr

/-- Model of `LspClient.__init__(host, port)`. -/
def LspClient.init (host : String) (port : Nat) : LspClient :=
  { host := host, port := port, sockSet := false, request_id := 0 }

/-- Model of the success path of `LspClient.connect`: the socket is
created and connected (`self.sock` becomes truthy) and `True` is returned.
No other attribute of `self` is touched by `connect`. -/
def connect_success (c : LspClient) : LspClient × Bool :=
  ({ c with sockSet := true }, true)

/-- Model of `LspClient.disconnect`: closes and clears the socket
(`self.sock = None`); the request-id counter is not touched. -/
def disconnect (c : LspClient) : LspClient :=
  { c with sockSet := false }

/-- Model of `LspClient.send_request` up to the id assignment: if
`self.sock` is falsy, raise `ConnectionError("Not connected")` leaving the
object unchanged; otherwise increment `self.request_id` and use its new
value as the envelope's `id`.  A call that completes (returning either a
success or an error envelope from the server) has consumed exactly this
id; the wire exchange itself is modelled separately. -/
def send_request_step (c : LspClient) : LspClient × Except ClientError Nat :=
  if c.sockSet = false then
    (c, Except.error ClientError.notConnected)
  else
    ({ c with request_id := c.request_id + 1 }, Except.ok (c.request_id + 1))

/-- Model of `LspClient.send_notification`: same connection check as
`send_request`, but the envelope carries no `id` and `self.request_id` is
never read or written. -/
def send_notification_step (c : LspClient) : LspClient × Except ClientError Unit :=
  if c.sockSet = false then
    (c, Except.error ClientError.notConnected)
  else
    (c, Except.ok ())

/-- An operation issued against one `LspClient` object. -/
inductive Op where
  | request
  | notification
deriving DecidableEq, Repr

/-- Run a sequence of operations against a client, collecting in order the
ids assigned to the requests (calls that raise assign no id). -/
def runOps : LspClient → List Op → LspClient × List Nat
  | c, [] => (c, [])
  | c, Op.request :: rest =>
    let step := send_request_step c
    let cont := runOps step.1 rest
    match step.2 with
    | Except.ok i => (cont.1, i :: cont.2)
    | Except.error _ => (cont.1, cont.2)
  | c, Op.notification :: rest =>
    runOps (send_notification_step c).1 rest

/-- Number of request operations in a sequence. -/
def numRequests (ops : List Op) : Nat :=
  ops.countP (fun o => o == Op.request)

/-!
Validator: function `validate_schema(name, result, schema)` of `utils.py`.
The `name` argument is carried but never read, exactly as in the source.
Python raising `TypeError` (from `x in y` or `for x in y` on an
unsupported operand) is modelled by `Except.error PyErr.typeError`.
-/

/-- Exceptions the validator can raise (`TypeError` from membership or
iteration on a non-container value). -/
inductive PyErr where
  | typeError
deriving DecidableEq, Repr

/-- The apostrophe character, used by Python `repr` around strings. -/
def sqChar : Char := Char.ofNat 39

/-- An opening curly brace character. -/
def lbChar : Char := Char.ofNat 123

/-- A closing curly brace character. -/
def rbChar : Char := Char.ofNat 125

mutual

/-- Model of Python `repr` on a JSON-decoded value, as used when such a
value is interpolated into an f-string inside a container: `None`, `True`,
`False`, decimal integers, strings in single quotes, lists in brackets and
dicts in braces with `, ` and `: ` separators.  Python's escaping inside
`repr` of a string (for quotes, backslashes and control characters) is not
modelled; no theorem below depends on the repr of such strings. -/
def pyRepr : Json → String
  | Json.null => "None"
  | Json.bool true => "True"
  | Json.bool false => "False"
  | Json.num n => toString n
  | Json.str s => String.mk (sqChar :: (s.data ++ [sqChar]))
  | Json.arr elems => "[" ++ pyReprElems elems ++ "]"
  | Json.obj fields => String.mk [lbChar] ++ pyReprFields fields ++ String.mk [rbChar]

/-- Comma-separated reprs of the elements of a list. -/
def pyReprElems : List Json → String
  | [] => ""
  | [x] => pyRepr x
  | x :: y :: rest => pyRepr x ++ ", " ++ pyReprElems (y :: rest)

/-- Comma-separated `key: value` reprs of the fields of a dict. -/
def pyReprFields : List (String × Json) → String
  | [] => ""
  | [(k, v)] => String.mk (sqChar :: (k.data ++ [sqChar])) ++ ": " ++ pyRepr v
  | (k, v) :: q :: rest =>
    String.mk (sqChar :: (k.data ++ [sqChar])) ++ ": " ++ pyRepr v ++ ", " ++
      pyReprFields (q :: rest)

end

/-- Model of Python `str` on a JSON-decoded value, as used by f-string
interpolation: a string interpolates as itself, every other value as its
`repr`. -/
def pyStr : Json → String
  | Json.str s => s
  | v => pyRepr v

/-- Model of Python `type(x).__name__` for JSON-decoded values. -/
def pyTypeName : Json → String
  | Json.null => "NoneType"
  | Json.bool _ => "bool"
  | Json.num _ => "int"
  | Json.str _ => "str"
  | Json.arr _ => "list"
  | Json.obj _ => "dict"

/-- Decide whether `pat` is an initial run of `l`. -/
def startsSeq {α : Type} [BEq α] : List α → List α → Bool
  | [], _ => true
  | _ :: _, [] => false
  | a :: as, b :: bs => a == b && startsSeq as bs

/-- Decide whether `pat` occurs contiguously somewhere inside `l`. -/
def containsSeq {α : Type} [BEq α] (pat : List α) : List α → Bool
  | [] => startsSeq pat []
  | a :: rest => startsSeq pat (a :: rest) || containsSeq pat rest

/-- Model of Python iteration `for x in v` over a JSON-decoded value:
lists yield their elements, strings their one-character substrings, dicts
their keys; other values raise `TypeError`. -/
def pyIter : Json → Except PyErr (List Json)
  | Json.arr elems => Except.ok elems
  | Json.str s => Except.ok (s.data.map (fun ch => Json.str (String.mk [ch])))
  | Json.obj fields => Except.ok (fields.map (fun p => Json.str p.1))
  | _ => Except.error PyErr.typeError

/-- Model of Python `needle in container` on JSON-decoded values: key
membership for dicts, element equality scan for lists, substring test for
strings (requiring a string needle), and `TypeError` for `None`, booleans
and numbers. -/
def pyContains (container needle : Json) : Except PyErr Bool :=
  match container with
  | Json.obj fields => Except.ok (fields.any (fun p => beqJson (Json.str p.1) needle))
  | Json.arr elems => Except.ok (elems.any (fun e => beqJson e needle))
  | Json.str s =>
    match needle with
    | Json.str t => Except.ok (containsSeq t.data s.data)
    | _ => Except.error PyErr.typeError
  | _ => Except.error PyErr.typeError

/-- Model of the loop `for field in fields: if field not in container:
issues.append(msgPre + str(field))` — issues in iteration order; a raised
`TypeError` propagates and discards the accumulated issues, as the Python
exception does. -/
def fieldIssues (msgPre : String) (container : Json) : List Json → Except PyErr (List String)
  | [] => Except.ok []
  | f :: rest =>
    (pyContains container f).bind fun b =>
    (fieldIssues msgPre container rest).bind fun tail =>
    if b then Except.ok tail else Except.ok ((msgPre ++ pyStr f) :: tail)

/-- Model of `validate_schema(name, result, schema)` from `utils.py`,
translated branch by branch: the error-truthiness short circuit, the
`response is None` nullable check, the `"array"`/`"object"` dispatch on
`schema.get("type")` with first-element `itemFields` sampling for arrays
and `requiredFields` presence checks for objects, and the final
`(len(issues) == 0, issues)` verdict.  No branch exists for any other
`type` value, so such descriptors fall through with no issues. -/
def validate_schema (name : String) (result : PyDict) (schema : PyDict) :
    Except PyErr (Bool × List String) :=
  if (dictGet result "error").truthy then
    Except.ok (false, ["Error response: " ++ pyStr (dictGet result "error")])
  else
    match dictGet result "result" with
    | Json.null =>
      if (dictGetD schema "nullable" (Json.bool false)).truthy then
        Except.ok (true, [])
      else
        Except.ok (false, ["Returned null but schema does not allow it"])
    | response =>
      if beqJson (dictGet schema "type") (Json.str "array") then
        match response with
        | Json.arr elems =>
          let item_fields := dictGetD schema "itemFields" (Json.arr [])
          if (Json.arr elems).truthy && item_fields.truthy then
            match elems with
            | item :: _ =>
              (pyIter item_fields).bind fun fields =>
              (fieldIssues "Array item missing required field: " item fields).bind fun issues =>
              Except.ok (issues.isEmpty, issues)
            | [] => Except.ok (true, [])
          else
            Except.ok (true, [])
        | _ =>
          Except.ok (false, ["Expected array, got " ++ pyTypeName response])
      else if beqJson (dictGet schema "type") (Json.str "object") then
        match response with
        | Json.obj _ =>
          let required_fields := dictGetD schema "requiredFields" (Json.arr [])
          (pyIter required_fields).bind fun fields =>
          (fieldIssues "Missing required field: " response fields).bind fun issues =>
          Except.ok (issues.isEmpty, issues)
        | _ =>
          Except.ok (false, ["Expected object, got " ++ pyTypeName response])
      else
        Except.ok (true, [])

/-- The static method-to-descriptor table `LSP_SCHEMAS` of
`tests/compliance.py`, transcribed entry by entry. -/
def LSP_SCHEMAS : List (String × PyDict) :=
  [("textDocument/hover",
    [("nullable", Json.bool true), ("type", Json.str "object"),
     ("requiredFields", Json.arr [Json.str "contents"])]),
   ("textDocument/definition",
    [("nullable", Json.bool true), ("type", Json.str "object"),
     ("requiredFields", Json.arr [Json.str "uri", Json.str "range"])]),
   ("textDocument/references",
    [("nullable", Json.bool true), ("type", Json.str "array"),
     ("itemFields", Json.arr [Json.str "uri", Json.str "range"])]),
   ("textDocument/documentSymbol",
    [("nullable", Json.bool true), ("type", Json.str "array"),
     ("itemFields", Json.arr [Json.str "name", Json.str "kind", Json.str "range",
       Json.str "selectionRange"])]),
   ("textDocument/signatureHelp",
    [("nullable", Json.bool true), ("type", Json.str "object"),
     ("requiredFields", Json.arr [Json.str "signatures"])]),
   ("textDocument/codeAction",
    [("nullable", Json.bool true), ("type", Json.str "array"),
     ("itemFields", Json.arr [Json.str "title"])]),
   ("textDocument/formatting",
    [("nullable", Json.bool true), ("type", Json.str "array"),
     ("itemFields", Json.arr [Json.str "range", Json.str "newText"])]),
   ("textDocument/inlayHint",
    [("nullable", Json.bool true), ("type", Json.str "array"),
     ("itemFields", Json.arr [Json.str "position", Json.str "label"])]),
   ("textDocument/implementation",
    [("nullable", Json.bool true), ("type", Json.str "array"),
     ("itemFields", Json.arr [Json.str "uri", Json.str "range"])]),
   ("workspace/symbol",
    [("nullable", Json.bool true), ("type", Json.str "array"),
     ("itemFields", Json.arr [Json.str "name", Json.str "kind", Json.str "location"])]),
   ("textDocument/typeDefinition",
    [("nullable", Json.bool true), ("type", Json.str "object"),
     ("requiredFields", Json.arr [Json.str "uri", Json.str "range"])]),
   ("textDocument/semanticTokens/full",
    [("nullable", Json.bool true), ("type", Json.str "object"),
     ("requiredFields", Json.arr [Json.str "data"])])]

/-- Model of the descriptor lookup in `tests/compliance.py`:
`schema = LSP_SCHEMAS.get(method, {"nullable": True})`. -/
def schemaFor (method : String) : PyDict :=
  match LSP_SCHEMAS.find? (fun p => p.1 == method) with
  | some p => p.2
  | none => [("nullable", Json.bool true)]

/-!
Encoding: `LspClient._send_message` serializes the envelope with
`json.dumps(message)` (default options, in particular `ensure_ascii=True`
and separators `", "` / `": "`), writes the header
`f"Content-Length: \x7blen(content)\x7d\\r\\n\\r\\n"` — `len` counts the
code points of the Python string — and sends `header + content` encoded as
UTF-8.  The serializer is modelled below character by character, following
CPython's `json.encoder` ASCII path: the two-character escapes for
backslash, quote and the five control shorthands, `\\uXXXX` escapes for
every other character outside `0x20`–`0x7e` (with surrogate pairs above
`0xFFFF`), and all other characters kept verbatim.
-/

/-- Decimal digit characters (always called with an argument below 10). -/
def natDigit : Nat → Char
  | 0 => '0' | 1 => '1' | 2 => '2' | 3 => '3' | 4 => '4'
  | 5 => '5' | 6 => '6' | 7 => '7' | 8 => '8' | 9 => '9'
  | _ => '0'

/-- Lowercase hexadecimal digit characters (argument below 16). -/
def hexDigit : Nat → Char
  | 0 => '0' | 1 => '1' | 2 => '2' | 3 => '3' | 4 => '4'
  | 5 => '5' | 6 => '6' | 7 => '7' | 8 => '8' | 9 => '9'
  | 10 => 'a' | 11 => 'b' | 12 => 'c' | 13 => 'd' | 14 => 'e' | 15 => 'f'
  | _ => '0'

/-- Four lowercase hex digits, as produced by Python's `"\\u%04x"`. -/
def hex4 (n : Nat) : List Char :=
  [hexDigit (n / 4096 % 16), hexDigit (n / 256 % 16), hexDigit (n / 16 % 16), hexDigit (n % 16)]

/-- Decimal digits of `n`, most significant first (`fuel`-guarded
structural recursion; `fuel = n` always suffices). -/
def natCharsAux : Nat → Nat → List Char
  | 0, _ => []
  | fuel + 1, n => if n = 0 then [] else natCharsAux fuel (n / 10) ++ [natDigit (n % 10)]

/-- Model of Python `str` on a non-negative `int`. -/
def natChars (n : Nat) : List Char :=
  if n = 0 then ['0'] else natCharsAux n n

/-- Model of Python `str` on an `int`, as emitted by `json.dumps` for
numbers. -/
def intChars (i : Int) : List Char :=
  if i < 0 then '-' :: natChars (-i).toNat else natChars i.toNat

/-- CPython `json.encoder` ASCII escaping of one character
(`py_encode_basestring_ascii`): backslash and quote doubled, the five
shorthand escapes, characters in `0x20`–`0x7e` kept, everything else as
`\\uXXXX` (surrogate pairs above the BMP). -/
def escapeChar (c : Char) : List Char :=
  if c = '\\' then ['\\', '\\']
  else if c = '"' then ['\\', '"']
  else if c.toNat = 8 then ['\\', 'b']
  else if c.toNat = 12 then ['\\', 'f']
  else if c.toNat = 10 then ['\\', 'n']
  else if c.toNat = 13 then ['\\', 'r']
  else if c.toNat = 9 then ['\\', 't']
  else if 32 ≤ c.toNat && c.toNat ≤ 126 then [c]
  else if c.toNat < 65536 then '\\' :: 'u' :: hex4 c.toNat
  else
    ('\\' :: 'u' :: hex4 (55296 + (c.toNat - 65536) / 1024)) ++
      ('\\' :: 'u' :: hex4 (56320 + (c.toNat - 65536) % 1024))

/-- Escape every character of a string body. -/
def escapeList (cs : List Char) : List Char :=
  cs.foldr (fun c acc => escapeChar c ++ acc) []

/-- Serialization of a JSON string: quote, escaped body, quote. -/
def dumpStr (s : String) : List Char :=
  '"' :: (escapeList s.data ++ ['"'])

mutual

/-- Model of `json.dumps` (default options) on a JSON value, as a
character list. -/
def dumpVal : Json → List Char
  | Json.null => ['n', 'u', 'l', 'l']
  | Json.bool true => ['t', 'r', 'u', 'e']
  | Json.bool false => ['f', 'a', 'l', 's', 'e']
  | Json.num n => intChars n
  | Json.str s => dumpStr s
  | Json.arr elems => '[' :: (dumpElems elems ++ [']'])
  | Json.obj fields => lbChar :: (dumpFields fields ++ [rbChar])

/-- Array elements joined by the default `", "` separator. -/
def dumpElems : List Json → List Char
  | [] => []
  | [x] => dumpVal x
  | x :: y :: rest => dumpVal x ++ (',' :: ' ' :: dumpElems (y :: rest))

/-- Object fields as `"key": value` joined by `", "`. -/
def dumpFields : List (String × Json) → List Char
  | [] => []
  | [(k, v)] => dumpStr k ++ (':' :: ' ' :: dumpVal v)
  | (k, v) :: q :: rest =>
    (dumpStr k ++ (':' :: ' ' :: dumpVal v)) ++ (',' :: ' ' :: dumpFields (q :: rest))

end

/-- Model of `json.dumps(message)` as a Python string. -/
def jsonDumps (j : Json) : String := String.mk (dumpVal j)

/-- Character lists whose members are all ASCII. -/
abbrev asciiL (l : List Char) : Prop := ∀ c ∈ l, c.toNat < 128

/-- UTF-8 byte count of a character list (sum of per-character UTF-8
sizes). -/
def utf8LenL (l : List Char) : Nat := l.foldr (fun c n => c.utf8Size + n) 0

/-- UTF-8 byte count of a string. -/
def utf8Len (s : String) : Nat := utf8LenL s.data

/-- Model of `LspClient._send_message`: the pair of the number written
after `Content-Length: ` in the header — `len(content)`, Python's
code-point count — and the body string `content` whose UTF-8 encoding
follows the header on the wire. -/
def send_message_frame (message : Json) : Nat × String :=
  ((jsonDumps message).length, jsonDumps message)

/-!
Decoding: `LspClient._receive_response` reads the header one byte at a
time (`recv(1)`) until the accumulated buffer contains `b"\\r\\n\\r\\n"`,
splits the header on `"\\r\\n"`, takes from the first line starting with
`Content-Length:` the integer after the first colon (stripped), then loops
`recv(content_length - len(body))` until the body is complete; a `recv`
returning zero bytes (peer closed) raises
`ConnectionError("Connection closed")` in either loop.  The model below
works on the raw byte stream the peer sends before closing (`List Nat`),
with a `sched` oracle choosing how many bytes each body `recv` actually
delivers (clamped to at least 1 and at most the bytes asked for and
available, as for a real socket).  Two steps of the Python code are not
modelled: `header.decode("utf-8")` — the model parses the header bytes
directly, which coincides with the code whenever the header is ASCII, as
the theorems assume — and the final `json.loads(body)`: on success the
model returns the raw body bytes, while the claims settled here concern
only the error path before that point.
-/

/-- Errors `_receive_response` can raise that this model distinguishes:
`connectionClosed` is `ConnectionError("Connection closed")`;
`valueError` is the `ValueError` from `int()` on a malformed
`Content-Length` value. -/
inductive RecvError where
  | connectionClosed
  | valueError
deriving DecidableEq, Repr

/-- The header terminator `b"\\r\\n\\r\\n"` as bytes. -/
def crlf2 : List Nat := [13, 10, 13, 10]

/-- Model of the header loop: while the terminator is not contained in
the accumulated buffer, `recv(1)` one byte; an exhausted stream (the peer
closed) yields `none`.  Returns the header together with the unread
remainder of the stream. -/
def readHeaderLoop : List Nat → List Nat → Option (List Nat × List Nat)
  | header, [] => if containsSeq crlf2 header then some (header, []) else none
  | header, b :: rest =>
    if containsSeq crlf2 header then some (header, b :: rest)
    else readHeaderLoop (header ++ [b]) rest

/-- Split on the two-byte separator `\\r\\n`, leftmost first, as Python
`str.split("\\r\\n")`. -/
def splitCRLFAux : List Nat → List Nat → List (List Nat)
  | acc, [] => [acc]
  | acc, 13 :: 10 :: rest => acc :: splitCRLFAux [] rest
  | acc, b :: rest => splitCRLFAux (acc ++ [b]) rest

/-- Model of `header_str.split("\\r\\n")` at the byte level. -/
def splitCRLF (l : List Nat) : List (List Nat) := splitCRLFAux [] l

/-- Split on a one-byte separator, as Python `str.split(":")`. -/
def splitByteAux (sep : Nat) : List Nat → List Nat → List (List Nat)
  | acc, [] => [acc]
  | acc, b :: rest =>
    if b == sep then acc :: splitByteAux sep [] rest else splitByteAux sep (acc ++ [b]) rest

/-- Model of `line.split(":")` at the byte level. -/
def splitByte (sep : Nat) (l : List Nat) : List (List Nat) := splitByteAux sep [] l

/-- ASCII whitespace removed by Python `str.strip()`. -/
def isSpaceByte (b : Nat) : Bool :=
  b == 32 || b == 9 || b == 10 || b == 13 || b == 11 || b == 12

/-- Model of `str.strip()` at the byte level. -/
def stripBytes (l : List Nat) : List Nat :=
  ((l.dropWhile isSpaceByte).reverse.dropWhile isSpaceByte).reverse

/-- ASCII decimal digit test. -/
def isDigitByte (b : Nat) : Bool := 48 ≤ b && b ≤ 57

/-- Digit run accepted by Python `int()` after the first digit: further
digits, with single underscores allowed between digits. -/
def pyDigitsAux : Nat → List Nat → Option Nat
  | acc, [] => some acc
  | acc, b :: rest =>
    if isDigitByte b then pyDigitsAux (acc * 10 + (b - 48)) rest
    else if b == 95 then
      match rest with
      | c :: _ => if isDigitByte c then pyDigitsAux acc rest else none
      | [] => none
    else none

/-- Unsigned digit run accepted by Python `int()`. -/
def pyDigits : List Nat → Option Nat
  | [] => none
  | b :: rest => if isDigitByte b then pyDigitsAux (b - 48) rest else none

/-- Model of Python `int(s)` on an already-stripped ASCII string: optional
sign followed by digits; `none` is the raised `ValueError`. -/
def parsePyInt : List Nat → Option Int
  | 43 :: rest => (pyDigits rest).map (fun n => (n : Int))
  | 45 :: rest => (pyDigits rest).map (fun n => -(n : Int))
  | l => (pyDigits l).map (fun n => (n : Int))

/-- The bytes of an ASCII string. -/
def asciiBytes (s : String) : List Nat := s.data.map Char.toNat

/-- The bytes of the header key `Content-Length:` matched by
`line.startswith("Content-Length:")`. -/
def clBytes : List Nat := asciiBytes "Content-Length:"

/-- Model of the `Content-Length` extraction loop: the first line starting
with `Content-Length:` contributes `int(line.split(":")[1].strip())` and
the loop breaks; if no line matches, the content length stays `0`.  The
second `match` arm is unreachable: a line starting with
`Content-Length:` always contains a colon, so the split has a second
element. -/
def findContentLength : List (List Nat) → Except RecvError Int
  | [] => Except.ok 0
  | line :: rest =>
    if startsSeq clBytes line then
      match splitByte 58 line with
      | _ :: second :: _ =>
        match parsePyInt (stripBytes second) with
        | some n => Except.ok n
        | none => Except.error RecvError.valueError
      | _ => Except.error RecvError.valueError
    else findContentLength rest

/-- Model of the body loop `while len(body) < content_length`: each
iteration asks `recv` for the missing bytes and receives between 1 and
`min(asked, available)` of them, the exact number chosen by the `sched`
oracle (call index `i`); an exhausted stream means `recv` returned zero
bytes, the raised `ConnectionError("Connection closed")`. -/
def readBody (sched : Nat → Nat) (i : Nat) (body : List Nat) (stream : List Nat)
    (need : Int) : Except RecvError (List Nat) :=
  if h : (body.length : Int) < need then
    match stream with
    | [] => Except.error RecvError.connectionClosed
    | b :: rest =>
      let k := min ((need - (body.length : Int)).toNat) (min (b :: rest).length (max 1 (sched i)))
      readBody sched (i + 1) (body ++ (b :: rest).take k) ((b :: rest).drop k) need
  else Except.ok body
termination_by stream.length
decreasing_by
  simp only [List.length_drop, List.length_cons]
  have ha : 1 ≤ (need - (body.length : Int)).toNat := by omega
  omega

/-- Model of `LspClient._receive_response` over the bytes the peer sends
before closing the stream: header loop, `Content-Length` parse, body
loop.  On success the raw body bytes are returned (the trailing
`json.loads` is outside this model). -/
def receiveResponse (sched : Nat → Nat) (stream : List Nat) : Except RecvError (List Nat) :=
  match readHeaderLoop [] stream with
  | none => Except.error RecvError.connectionClosed
  | some (header, rest) =>
    match findContentLength (splitCRLF header) with
    | Except.error e => Except.error e
    | Except.ok n => readBody sched 0 [] rest n

/-- Helper: counting requests steps over a leading request. -/
theorem numRequests_cons_request (rest : List Op) :
    numRequests (Op.request :: rest) = numRequests rest + 1 := by
  simp [numRequests, List.countP_cons]

/-- Helper: counting requests ignores a leading notification. -/
theorem numRequests_cons_notification (rest : List Op) :
    numRequests (Op.notification :: rest) = numRequests rest := by
  simp [numRequests, List.countP_cons]

/-- Generalized id-assignment lemma: from any connected client, the ids
collected by a run are the consecutive integers starting right above the
current counter value, and the run preserves connectedness while advancing
the counter by the number of requests. -/
theorem runOps_ids (ops : List Op) : ∀ c : LspClient, c.sockSet = true →
    (runOps c ops).2 = List.range' (c.request_id + 1) (numRequests ops) ∧
    (runOps c ops).1.sockSet = true ∧
    (runOps c ops).1.request_id = c.request_id + numRequests ops := by
  induction ops with
  | nil => intro c hc; simp [runOps, numRequests, hc]
  | cons op rest ih =>
    intro c hc
    cases op with
    | request =>
      have hstep : send_request_step c =
          ({ c with request_id := c.request_id + 1 }, Except.ok (c.request_id + 1)) := by
        simp [send_request_step, hc]
      have ih' := ih { c with request_id := c.request_id + 1 } (by simp [hc])
      refine ⟨?_, ?_, ?_⟩
      · show (runOps c (Op.request :: rest)).2 = _
        simp only [runOps, hstep]
        rw [ih'.1, numRequests_cons_request]
        simp [List.range']
      · show (runOps c (Op.request :: rest)).1.sockSet = true
        simp only [runOps, hstep]
        exact ih'.2.1
      · show (runOps c (Op.request :: rest)).1.request_id = _
        simp only [runOps, hstep]
        rw [ih'.2.2, numRequests_cons_request]
        simp
        omega
    | notification =>
      have hstep : (send_notification_step c).1 = c := by
        simp [send_notification_step, hc]
      have ih' := ih c hc
      simp only [runOps, hstep, numRequests_cons_notification]
      exact ih'

/-- C1: on a freshly constructed and successfully connected `LspClient`,
any interleaving of completed `send_request` and `send_notification` calls
assigns to the N requests exactly the ids 1, 2, …, N in order (no repeats,
no decreases); each `send_request` advances the counter by exactly one and
`send_notification` never changes the object state at all. -/
theorem request_ids_consecutive (host : String) (port : Nat) (ops : List Op)
    (c : LspClient) :
    (runOps (connect_success (LspClient.init host port)).1 ops).2 =
      List.range' 1 (numRequests ops) ∧
    (send_request_step c).1.request_id =
      c.request_id + (if c.sockSet then 1 else 0) ∧
    (send_notification_step c).1 = c := by
  refine ⟨?_, ?_, ?_⟩
  · have h := runOps_ids ops (connect_success (LspClient.init host port)).1 rfl
    simpa [connect_success, LspClient.init] using h.1
  · by_cases hc : c.sockSet <;> simp [send_request_step, hc]
  · by_cases hc : c.sockSet <;> simp [send_notification_step, hc]

/-- C2 counterexample: `connect` does not reset the request-id counter.
A client that has issued one request (counter 1), disconnected and then
successfully reconnected still has counter 1 (not 0), and the first
`send_request` after that fresh successful connect is assigned id 2
(not 1). -/
theorem connect_does_not_reset_counter :
    let c0 := (connect_success (LspClient.init "127.0.0.1" 2087)).1
    let c1 := (runOps c0 [Op.request]).1
    let c2 := (connect_success (disconnect c1)).1
    c2.request_id = 1 ∧ c2.request_id ≠ 0 ∧
      (send_request_step c2).2 = Except.ok 2 ∧ (2 : Nat) ≠ 1 := by
  refine ⟨rfl, by decide, rfl, by decide⟩

/-- C2 amended: a successful `connect()` leaves the request-id counter
unchanged; the counter is set to 0 only by `__init__`, so the first
`send_request` after connecting a freshly constructed client is assigned
id 1, while after a reconnect the ids continue from the previous value. -/
theorem connect_preserves_counter (c : LspClient) (host : String) (port : Nat) :
    (connect_success c).1.request_id = c.request_id ∧
    (LspClient.init host port).request_id = 0 ∧
    (send_request_step (connect_success (LspClient.init host port)).1).2 =
      Except.ok 1 := by
  refine ⟨rfl, rfl, rfl⟩

/-- C10: on a client with no open connection — freshly constructed
(`sock is None`) or after `disconnect()` (which sets `sock = None`) — both
`send_request` and `send_notification` raise
`ConnectionError("Not connected")` and leave the object, in particular the
request-id counter, unchanged: the check precedes the increment. -/
theorem not_connected_raises (host : String) (port : Nat) (c : LspClient) :
    send_request_step (LspClient.init host port) =
      (LspClient.init host port, Except.error ClientError.notConnected) ∧
    send_notification_step (LspClient.init host port) =
      (LspClient.init host port, Except.error ClientError.notConnected) ∧
    send_request_step (disconnect c) =
      (disconnect c, Except.error ClientError.notConnected) ∧
    send_notification_step (disconnect c) =
      (disconnect c, Except.error ClientError.notConnected) := by
    refine ⟨rfl, rfl, ?_, ?_⟩ <;> simp [send_request_step, send_notification_step, disconnect]

/-- Helper: on an error-free envelope with a null (or absent) `result`,
`validate_schema` reduces to the nullable check on the descriptor. -/
theorem validate_null_core (name : String) (result schema : PyDict)
    (herr : (dictGet result "error").truthy = false)
    (hres : dictGet result "result" = Json.null) :
    validate_schema name result schema =
      (if (dictGetD schema "nullable" (Json.bool false)).truthy then
        Except.ok (true, [])
      else
        Except.ok (false, ["Returned null but schema does not allow it"])) := by
  unfold validate_schema
  rw [hres, herr]
  simp

/-- C3 counterexample: an envelope that does contain an `error` field —
bound to the falsy value `{}` — is not failed by `validate_schema`: the
code tests the truthiness of `result.get("error")`, not the presence of
the key, so this envelope passes the permissive descriptor
`{"nullable": True}` with verdict `(True, [])` instead of failing with one
issue. -/
theorem error_field_truthiness_counterexample :
    validate_schema "textDocument/hover" [("error", Json.obj [])]
        [("nullable", Json.bool true)] = Except.ok (true, []) ∧
    ∀ issues : List String,
      validate_schema "textDocument/hover" [("error", Json.obj [])]
          [("nullable", Json.bool true)] ≠ Except.ok (false, issues) := by
  refine ⟨rfl, ?_⟩
  intro issues h
  rw [show validate_schema "textDocument/hover" [("error", Json.obj [])]
      [("nullable", Json.bool true)] = Except.ok (true, []) from rfl] at h
  simp at h

/-- C3 amended: for every envelope whose `error` field holds a truthy
value (in particular every JSON-RPC error object, which is a non-empty
dict) and every descriptor, however permissive, `validate_schema` fails
with exactly the one issue interpolating that error value; a `result`
value also present is never consulted. -/
theorem error_envelope_always_fails (name : String) (result schema : PyDict)
    (herr : (dictGet result "error").truthy = true) :
    validate_schema name result schema =
      Except.ok (false, ["Error response: " ++ pyStr (dictGet result "error")]) := by
  unfold validate_schema
  rw [herr]
  simp

/-- Witness for the amended C3 theorem at the spec's own example: the
envelope `{"error": {"code": -32601, "message": "not found"}}` against the
most permissive descriptor fails with a single issue describing the
error. -/
theorem error_envelope_always_fails_witness :
    validate_schema "textDocument/hover"
        [("error", Json.obj [("code", Json.num (-32601)), ("message", Json.str "not found")]),
         ("result", Json.str "ignored")]
        [("nullable", Json.bool true)] =
      Except.ok (false,
        ["Error response: " ++
          pyStr (dictGet
            [("error", Json.obj [("code", Json.num (-32601)), ("message", Json.str "not found")]),
             ("result", Json.str "ignored")] "error")]) :=
  error_envelope_always_fails "textDocument/hover" _ _ rfl

/-- C6: on an envelope with no `error` field whose `result` is null or
absent, the verdict is `(true, [])` when the descriptor's `nullable` flag
is `true` and `(false, ["Returned null but schema does not allow it"])`
when the flag is `false`. -/
theorem null_result_follows_nullable_flag (name : String) (result schema : PyDict)
    (b : Bool)
    (herr : result.find? (fun p => p.1 == "error") = none)
    (hres : dictGet result "result" = Json.null)
    (hn : schema.find? (fun p => p.1 == "nullable") = some ("nullable", Json.bool b)) :
    validate_schema name result schema =
      (if b then Except.ok (true, [])
       else Except.ok (false, ["Returned null but schema does not allow it"])) := by
  have h1 : (dictGet result "error").truthy = false := by
    simp [dictGet, herr, Json.truthy]
  have h2 : dictGetD schema "nullable" (Json.bool false) = Json.bool b := by
    simp [dictGetD, hn]
  rw [validate_null_core name result schema h1 hres, h2]
  cases b <;> simp [Json.truthy]

/-- Witness for C6 at the spec's example: `{"result": null}` against
`{"nullable": true}` passes with no issues, and against
`{"nullable": false}` fails with the fixed issue string. -/
theorem null_result_follows_nullable_flag_witness :
    validate_schema "textDocument/hover" [("result", Json.null)]
        [("nullable", Json.bool true)] = Except.ok (true, []) ∧
    validate_schema "textDocument/hover" [("result", Json.null)]
        [("nullable", Json.bool false)] =
      Except.ok (false, ["Returned null but schema does not allow it"]) := by
  constructor
  · exact null_result_follows_nullable_flag "textDocument/hover" _ _ true rfl rfl rfl
  · exact null_result_follows_nullable_flag "textDocument/hover" _ _ false rfl rfl rfl

/-- C9: a descriptor with no `nullable` key at all is treated as
non-nullable — a null `result` fails — and the permissive behavior for
unknown methods comes solely from the caller in `tests/compliance.py`
substituting the descriptor `{"nullable": True}` whenever the method is
absent from `LSP_SCHEMAS`, which makes the same null `result` pass. -/
theorem nullable_defaults_false_and_caller_substitutes :
    (∀ (name : String) (result schema : PyDict),
      result.find? (fun p => p.1 == "error") = none →
      dictGet result "result" = Json.null →
      schema.find? (fun p => p.1 == "nullable") = none →
      validate_schema name result schema =
        Except.ok (false, ["Returned null but schema does not allow it"])) ∧
    (∀ (name method : String) (result : PyDict),
      result.find? (fun p => p.1 == "error") = none →
      dictGet result "result" = Json.null →
      LSP_SCHEMAS.find? (fun p => p.1 == method) = none →
      validate_schema name result (schemaFor method) = Except.ok (true, [])) := by
  constructor
  · intro name result schema herr hres hn
    have h1 : (dictGet result "error").truthy = false := by
      simp [dictGet, herr, Json.truthy]
    have h2 : dictGetD schema "nullable" (Json.bool false) = Json.bool false := by
      simp [dictGetD, hn]
    rw [validate_null_core name result schema h1 hres, h2]
    simp [Json.truthy]
  · intro name method result herr hres hm
    have h1 : (dictGet result "error").truthy = false := by
      simp [dictGet, herr, Json.truthy]
    have hs : schemaFor method = [("nullable", Json.bool true)] := by
      simp [schemaFor, hm]
    rw [hs, validate_null_core name result _ h1 hres]
    simp [dictGetD, Json.truthy]

/-- Witness for C9: a null result against the `nullable`-free descriptor
`{"type": "array"}` fails, while the same envelope validated the way
`compliance.py` does for the unknown method `textDocument/rename` (absent
from `LSP_SCHEMAS`) passes. -/
theorem nullable_defaults_false_and_caller_substitutes_witness :
    validate_schema "m" [("result", Json.null)] [("type", Json.str "array")] =
      Except.ok (false, ["Returned null but schema does not allow it"]) ∧
    validate_schema "m" [("result", Json.null)] (schemaFor "textDocument/rename") =
      Except.ok (true, []) := by
  constructor
  · exact nullable_defaults_false_and_caller_substitutes.1 "m" _ _ rfl rfl rfl
  · exact nullable_defaults_false_and_caller_substitutes.2 "m" "textDocument/rename" _ rfl rfl rfl

/-- Helper: equality of two JSON strings is string equality. -/
theorem beqJson_str_str (a b : String) : beqJson (Json.str a) (Json.str b) = (a == b) := rfl

/-- Helper: the `itemFields` loop over a dict first element collects, in
order, one issue per field name whose key is missing from the dict. -/
theorem fieldIssues_obj (msgPre : String) (ffields : PyDict) (fields : List String) :
    fieldIssues msgPre (Json.obj ffields) (fields.map Json.str) =
      Except.ok ((fields.filter (fun f => !(ffields.any (fun p => p.1 == f)))).map
        (fun f => msgPre ++ f)) := by
  induction fields with
  | nil => rfl
  | cons f rest ih =>
    simp only [List.map_cons, fieldIssues, pyContains, beqJson_str_str, ih, Except.bind]
    cases hb : ffields.any (fun p => p.1 == f) with
    | true => simp [List.filter_cons, hb, pyStr]
    | false => simp [List.filter_cons, hb, pyStr]

/-- C7 counterexample: on the non-empty array result `[5]` against the
array-kind descriptor `{"type": "array", "itemFields": ["name"]}`, the
code does not append the issue for the absent field; the membership test
`"name" not in 5` raises `TypeError`, so `validate_schema` raises instead
of returning any verdict. -/
theorem array_item_typeerror_counterexample :
    validate_schema "workspace/symbol" [("result", Json.arr [Json.num 5])]
        [("type", Json.str "array"), ("itemFields", Json.arr [Json.str "name"])] =
      Except.error PyErr.typeError ∧
    ∀ verdict : Bool × List String,
      validate_schema "workspace/symbol" [("result", Json.arr [Json.num 5])]
          [("type", Json.str "array"), ("itemFields", Json.arr [Json.str "name"])] ≠
        Except.ok verdict := by
  refine ⟨rfl, ?_⟩
  intro verdict h
  rw [show validate_schema "workspace/symbol" [("result", Json.arr [Json.num 5])]
      [("type", Json.str "array"), ("itemFields", Json.arr [Json.str "name"])] =
      Except.error PyErr.typeError from rfl] at h
  exact Except.noConfusion h

/-- C7 amended: for an error-free envelope whose result is a non-empty
array with an object (dict) first element, under an array-kind descriptor
with a non-empty list of `itemFields` names, `validate_schema` inspects
only the first element — the verdict is a function of that element alone,
with later elements (`rest`) never contributing issues — appending one
issue `"Array item missing required field: <name>"` per name absent from
its keys; an error-free non-null result that is not an array fails with
the single issue `"Expected array, got <typename>"`.  (When the first
element is not a container, the code instead raises `TypeError`, per the
counterexample.) -/
theorem array_kind_checks_first_element_only
    (name : String) (result schema : PyDict) (ffields : PyDict) (rest : List Json)
    (fields : List String) (v : Json) :
    ((dictGet result "error").truthy = false →
     dictGet result "result" = Json.arr (Json.obj ffields :: rest) →
     dictGet schema "type" = Json.str "array" →
     dictGetD schema "itemFields" (Json.arr []) = Json.arr (fields.map Json.str) →
     fields ≠ [] →
     validate_schema name result schema =
       Except.ok
         (((fields.filter (fun f => !(ffields.any (fun p => p.1 == f)))).map
             (fun f => "Array item missing required field: " ++ f)).isEmpty,
          (fields.filter (fun f => !(ffields.any (fun p => p.1 == f)))).map
            (fun f => "Array item missing required field: " ++ f))) ∧
    ((dictGet result "error").truthy = false →
     dictGet result "result" = v →
     (∀ elems : List Json, v ≠ Json.arr elems) →
     v ≠ Json.null →
     dictGet schema "type" = Json.str "array" →
     validate_schema name result schema =
       Except.ok (false, ["Expected array, got " ++ pyTypeName v])) := by
  constructor
  · intro herr hres htype hitem hne
    unfold validate_schema
    rw [herr, hres, htype]
    have htr : (Json.arr (fields.map Json.str)).truthy = true := by
      cases fields with
      | nil => exact absurd rfl hne
      | cons f fs => simp [Json.truthy]
    simp only [hitem, beqJson, htr]
    simp [pyIter, fieldIssues_obj, Json.truthy, Except.bind]
  · intro herr hres hnarr hnnull htype
    unfold validate_schema
    rw [herr, hres, htype]
    cases v with
    | null => exact absurd rfl hnnull
    | arr elems => exact absurd rfl (hnarr elems)
    | bool b => simp [beqJson, pyTypeName]
    | num n => simp [beqJson, pyTypeName]
    | str s => simp [beqJson, pyTypeName]
    | obj fs => simp [beqJson, pyTypeName]

/-- Witness for the amended C7 theorem at the spec's example: the envelope
`{"result": [{"name": "x"}]}` against the descriptor
`{"type": "array", "itemFields": ["name", "kind"]}` fails with exactly the
issue for the `kind` field, and a non-array result `5` under an array-kind
descriptor fails with the type issue. -/
theorem array_kind_checks_first_element_only_witness :
    validate_schema "textDocument/documentSymbol"
        [("result", Json.arr [Json.obj [("name", Json.str "x")]])]
        [("type", Json.str "array"), ("itemFields", Json.arr [Json.str "name", Json.str "kind"])] =
      Except.ok (false, ["Array item missing required field: kind"]) ∧
    validate_schema "textDocument/documentSymbol" [("result", Json.num 5)]
        [("type", Json.str "array")] =
      Except.ok (false, ["Expected array, got int"]) := by
  constructor
  · have h := (array_kind_checks_first_element_only "textDocument/documentSymbol"
      [("result", Json.arr [Json.obj [("name", Json.str "x")]])]
      [("type", Json.str "array"), ("itemFields", Json.arr [Json.str "name", Json.str "kind"])]
      [("name", Json.str "x")] [] ["name", "kind"] Json.null).1
      rfl rfl rfl rfl (by simp)
    simpa using h
  · have h := (array_kind_checks_first_element_only "textDocument/documentSymbol"
      [("result", Json.num 5)] [("type", Json.str "array")]
      [] [] [] (Json.num 5)).2
      rfl rfl (fun elems h => Json.noConfusion h) (fun h => Json.noConfusion h) rfl
    simpa using h

/-- C8 counterexample: for the descriptor `{"type": "banana"}` — a kind
that is neither `array` nor `object` — and the non-null result `5`,
`validate_schema` does not fail fast: there is no else branch on the type
dispatch, so the verdict is the normal pass `(True, [])`. -/
theorem unknown_kind_counterexample :
    validate_schema "textDocument/hover" [("result", Json.num 5)]
        [("type", Json.str "banana")] = Except.ok (true, []) ∧
    ∀ e : PyErr,
      validate_schema "textDocument/hover" [("result", Json.num 5)]
          [("type", Json.str "banana")] ≠ Except.error e := by
  refine ⟨rfl, ?_⟩
  intro e h
  rw [show validate_schema "textDocument/hover" [("result", Json.num 5)]
      [("type", Json.str "banana")] = Except.ok (true, []) from rfl] at h
  exact Except.noConfusion h

/-- C8 amended: a descriptor whose `type` is neither `"array"` nor
`"object"` triggers no checking at all on an error-free envelope with a
non-null result: `validate_schema` returns the normal verdict
`(True, [])` rather than failing fast with an error. -/
theorem unknown_kind_returns_pass (name : String) (result schema : PyDict) (v : Json)
    (herr : (dictGet result "error").truthy = false)
    (hres : dictGet result "result" = v)
    (hnnull : v ≠ Json.null)
    (ht1 : beqJson (dictGet schema "type") (Json.str "array") = false)
    (ht2 : beqJson (dictGet schema "type") (Json.str "object") = false) :
    validate_schema name result schema = Except.ok (true, []) := by
  unfold validate_schema
  rw [herr, hres]
  cases v with
  | null => exact absurd rfl hnnull
  | bool b => simp [ht1, ht2]
  | num n => simp [ht1, ht2]
  | str s => simp [ht1, ht2]
  | arr elems => simp [ht1, ht2]
  | obj fs => simp [ht1, ht2]

/-- Witness for the amended C8 theorem: the unknown kind `"banana"` with
result `5` yields the normal pass verdict. -/
theorem unknown_kind_returns_pass_witness :
    validate_schema "textDocument/hover" [("result", Json.num 5)]
        [("type", Json.str "banana")] = Except.ok (true, []) :=
  unknown_kind_returns_pass "textDocument/hover" _ _ (Json.num 5) rfl rfl
    (fun h => Json.noConfusion h) rfl rfl

/-- Helper: the empty list is ASCII. -/
theorem asciiL_nil : asciiL [] := by intro c hc; cases hc

/-- Helper: appending preserves ASCII-ness. -/
theorem asciiL_append {a b : List Char} (ha : asciiL a) (hb : asciiL b) : asciiL (a ++ b) := by
  intro c hc
  rcases List.mem_append.mp hc with h | h
  · exact ha c h
  · exact hb c h

/-- Helper: consing an ASCII character preserves ASCII-ness. -/
theorem asciiL_cons {c : Char} {l : List Char} (hc : c.toNat < 128) (hl : asciiL l) :
    asciiL (c :: l) := by
  intro d hd
  rcases List.mem_cons.mp hd with h | h
  · rw [h]; exact hc
  · exact hl d h

/-- Helper: decimal digit characters are ASCII. -/
theorem natDigit_lt (n : Nat) : (natDigit n).toNat < 128 := by
  unfold natDigit; split <;> decide

/-- Helper: hexadecimal digit characters are ASCII. -/
theorem hexDigit_lt (n : Nat) : (hexDigit n).toNat < 128 := by
  unfold hexDigit; split <;> decide

/-- Helper: a four-digit hex escape body is ASCII. -/
theorem hex4_ascii (n : Nat) : asciiL (hex4 n) := by
  unfold hex4
  intro c hc
  simp only [List.mem_cons, List.not_mem_nil, or_false] at hc
  rcases hc with h | h | h | h <;> (rw [h]; exact hexDigit_lt _)

/-- Helper: decimal digit runs are ASCII. -/
theorem natCharsAux_ascii (fuel n : Nat) : asciiL (natCharsAux fuel n) := by
  induction fuel generalizing n with
  | zero => exact asciiL_nil
  | succ fuel ih =>
    rw [natCharsAux]
    split
    · exact asciiL_nil
    · exact asciiL_append (ih (n / 10)) (asciiL_cons (natDigit_lt _) asciiL_nil)

/-- Helper: the decimal form of a natural number is ASCII. -/
theorem natChars_ascii (n : Nat) : asciiL (natChars n) := by
  rw [natChars]
  split
  · exact asciiL_cons (natDigit_lt 0) asciiL_nil
  · exact natCharsAux_ascii n n

/-- Helper: the decimal form of an integer is ASCII. -/
theorem intChars_ascii (i : Int) : asciiL (intChars i) := by
  unfold intChars
  split
  · exact asciiL_cons (by decide) (natChars_ascii _)
  · exact natChars_ascii _

/-- Helper: the `ensure_ascii` escape of any character is ASCII — the key
fact behind the `Content-Length` correctness claim. -/
theorem escapeChar_ascii (c : Char) : asciiL (escapeChar c) := by
  unfold escapeChar
  split_ifs with h1 h2 h3 h4 h5 h6 h7 h8 h9
  · decide
  · decide
  · decide
  · decide
  · decide
  · decide
  · decide
  · intro d hd
    simp only [List.mem_singleton] at hd
    subst hd
    simp at h8
    omega
  · exact asciiL_cons (by decide) (asciiL_cons (by decide) (hex4_ascii _))
  · exact asciiL_append
      (asciiL_cons (by decide) (asciiL_cons (by decide) (hex4_ascii _)))
      (asciiL_cons (by decide) (asciiL_cons (by decide) (hex4_ascii _)))

/-- Helper: an escaped string body is ASCII. -/
theorem escapeList_ascii (cs : List Char) : asciiL (escapeList cs) := by
  induction cs with
  | nil => exact asciiL_nil
  | cons c rest ih => exact asciiL_append (escapeChar_ascii c) ih

/-- Helper: a serialized JSON string is ASCII. -/
theorem dumpStr_ascii (s : String) : asciiL (dumpStr s) :=
  asciiL_cons (by decide) (asciiL_append (escapeList_ascii _) (by decide))

mutual

/-- Helper: the default `json.dumps` output is pure ASCII. -/
theorem dumpVal_ascii : (j : Json) → asciiL (dumpVal j)
  | Json.null => by decide
  | Json.bool true => by decide
  | Json.bool false => by decide
  | Json.num n => intChars_ascii n
  | Json.str s => dumpStr_ascii s
  | Json.arr elems =>
    asciiL_cons (by decide) (asciiL_append (dumpElems_ascii elems) (by decide))
  | Json.obj fields =>
    asciiL_cons (by decide) (asciiL_append (dumpFields_ascii fields) (by decide))

/-- Helper: serialized array elements are ASCII. -/
theorem dumpElems_ascii : (l : List Json) → asciiL (dumpElems l)
  | [] => asciiL_nil
  | [x] => dumpVal_ascii x
  | x :: y :: rest =>
    asciiL_append (dumpVal_ascii x)
      (asciiL_cons (by decide) (asciiL_cons (by decide) (dumpElems_ascii (y :: rest))))

/-- Helper: serialized object fields are ASCII. -/
theorem dumpFields_ascii : (l : List (String × Json)) → asciiL (dumpFields l)
  | [] => asciiL_nil
  | [(k, v)] =>
    asciiL_append (dumpStr_ascii k)
      (asciiL_cons (by decide) (asciiL_cons (by decide) (dumpVal_ascii v)))
  | (k, v) :: q :: rest =>
    asciiL_append
      (asciiL_append (dumpStr_ascii k)
        (asciiL_cons (by decide) (asciiL_cons (by decide) (dumpVal_ascii v))))
      (asciiL_cons (by decide) (asciiL_cons (by decide) (dumpFields_ascii (q :: rest))))

end

/-- Helper: an ASCII character occupies one UTF-8 byte. -/
theorem utf8Size_ascii (c : Char) (h : c.toNat < 128) : c.utf8Size = 1 := by
  simp only [Char.utf8Size]
  have h1 : c.val ≤ 127 := by
    apply UInt32.le_def.mpr
    show c.val.toNat ≤ 127
    exact Nat.le_of_lt_succ h
  simp [h1]

/-- Helper: on ASCII character lists the UTF-8 byte count equals the
character count. -/
theorem utf8LenL_ascii : ∀ {l : List Char}, asciiL l → utf8LenL l = l.length := by
  intro l
  induction l with
  | nil => intro _; rfl
  | cons c rest ih =>
    intro h
    have hc : c.toNat < 128 := h c (List.mem_cons_self c rest)
    have hr : asciiL rest := fun d hd => h d (List.mem_cons_of_mem c hd)
    show c.utf8Size + utf8LenL rest = rest.length + 1
    rw [utf8Size_ascii c hc, ih hr]
    omega

/-- Helper: `utf8LenL` agrees with the byte-size recursion of the core
library's `String.utf8ByteSize`. -/
theorem utf8LenL_go (l : List Char) : utf8LenL l = String.utf8ByteSize.go l := by
  induction l with
  | nil => rfl
  | cons c rest ih =>
    show c.utf8Size + utf8LenL rest = String.utf8ByteSize.go rest + c.utf8Size
    rw [ih]
    omega

/-- Helper: `utf8Len` is the core library's UTF-8 byte size. -/
theorem utf8Len_eq_utf8ByteSize (s : String) : utf8Len s = s.utf8ByteSize := by
  cases s with
  | mk data => exact utf8LenL_go data

/-- Sanity example: a non-ASCII character in a value is emitted as an
ASCII `\u00e9` escape by the default `ensure_ascii` serializer. -/
example : jsonDumps (Json.str (String.mk [Char.ofNat 233])) = "\"\\u00e9\"" := rfl

/-- C4: for every envelope sent by `_send_message`, the `Content-Length`
value written in the header — Python's `len` of the `json.dumps` output —
equals the exact UTF-8 byte length of the JSON body that follows it,
including when `params` holds non-ASCII (multi-byte) characters: the
default `ensure_ascii=True` serialization is pure ASCII, so code points
and UTF-8 bytes coincide. -/
theorem content_length_matches_utf8 (message : Json) :
    (send_message_frame message).1 = (send_message_frame message).2.utf8ByteSize ∧
    (send_message_frame message).1 = utf8Len (send_message_frame message).2 := by
  have h1 : utf8Len (jsonDumps message) = (jsonDumps message).length := by
    show utf8LenL (dumpVal message) = (String.mk (dumpVal message)).length
    rw [utf8LenL_ascii (dumpVal_ascii message)]
    rfl
  constructor
  · show (jsonDumps message).length = (jsonDumps message).utf8ByteSize
    rw [← utf8Len_eq_utf8ByteSize, h1]
  · exact h1.symm

/-- Helper: the empty pattern starts every list. -/
theorem startsSeq_nil {α : Type} [BEq α] (l : List α) : startsSeq [] l = true := by
  cases l <;> rfl

/-- Helper: a pattern starting a list still starts it after appending. -/
theorem startsSeq_append {α : Type} [BEq α] :
    ∀ (pat l t : List α), startsSeq pat l = true → startsSeq pat (l ++ t) = true := by
  intro pat
  induction pat with
  | nil => intro l t _; exact startsSeq_nil _
  | cons a as ih =>
    intro l t h
    cases l with
    | nil => exact absurd h (by simp [startsSeq])
    | cons b bs =>
      simp only [startsSeq, Bool.and_eq_true] at h
      simp only [List.cons_append, startsSeq, Bool.and_eq_true]
      exact ⟨h.1, ih bs t h.2⟩

/-- Helper: an occurrence survives appending on the right. -/
theorem containsSeq_append_right {α : Type} [BEq α] :
    ∀ (l pat t : List α), containsSeq pat l = true → containsSeq pat (l ++ t) = true := by
  intro l
  induction l with
  | nil =>
    intro pat t h
    simp only [containsSeq] at h
    cases pat with
    | nil =>
      cases t with
      | nil => exact h
      | cons c cs => simp [containsSeq, startsSeq_nil]
    | cons p ps => exact absurd h (by simp [startsSeq])
  | cons a rest ih =>
    intro pat t h
    simp only [containsSeq, Bool.or_eq_true] at h
    simp only [List.cons_append, containsSeq, Bool.or_eq_true]
    rcases h with h | h
    · exact Or.inl (by simpa using startsSeq_append pat (a :: rest) t h)
    · exact Or.inr (ih pat t h)

/-- Helper: every list starts itself. -/
theorem startsSeq_self {α : Type} [BEq α] [LawfulBEq α] (l : List α) : startsSeq l l = true := by
  induction l with
  | nil => rfl
  | cons a as ih => simp [startsSeq, ih]

/-- Helper: a pattern occurs in any list it terminates. -/
theorem containsSeq_at_end {α : Type} [BEq α] [LawfulBEq α] :
    ∀ (l pat : List α), containsSeq pat (l ++ pat) = true := by
  intro l
  induction l with
  | nil =>
    intro pat
    cases pat with
    | nil => rfl
    | cons p ps => simp [containsSeq, startsSeq_self]
  | cons a rest ih =>
    intro pat
    simp only [List.cons_append, containsSeq, Bool.or_eq_true]
    exact Or.inr (ih pat)

/-- Helper: if the whole stream, behind any already-read bytes, never
exhibits the header terminator, the header loop hits the closed stream
and returns `none`. -/
theorem readHeaderLoop_none :
    ∀ (stream acc : List Nat), containsSeq crlf2 (acc ++ stream) = false →
      readHeaderLoop acc stream = none := by
  intro stream
  induction stream with
  | nil =>
    intro acc h
    simp only [List.append_nil] at h
    simp [readHeaderLoop, h]
  | cons b rest ih =>
    intro acc h
    have hacc : containsSeq crlf2 acc = false := by
      by_contra hc
      have := containsSeq_append_right acc crlf2 (b :: rest) (by
        cases hx : containsSeq crlf2 acc
        · exact absurd hx hc
        · rfl)
      rw [this] at h
      exact Bool.noConfusion h
    simp only [readHeaderLoop, hacc, Bool.false_eq_true, if_false]
    apply ih
    simpa [List.append_assoc] using h

/-- Helper: when the terminator first materializes exactly at the end of
`h`, the header loop consumes precisely `h` and hands back the rest. -/
theorem readHeaderLoop_finds :
    ∀ (h acc rest : List Nat),
      (∀ k, k < h.length → containsSeq crlf2 (acc ++ h.take k) = false) →
      containsSeq crlf2 (acc ++ h) = true →
      readHeaderLoop acc (h ++ rest) = some (acc ++ h, rest) := by
  intro h
  induction h with
  | nil =>
    intro acc rest _ hend
    simp only [List.append_nil] at hend
    cases rest with
    | nil => simp [readHeaderLoop, hend]
    | cons b bs => simp [readHeaderLoop, hend]
  | cons x xs ih =>
    intro acc rest hno hend
    have hacc : containsSeq crlf2 acc = false := by
      have := hno 0 (by simp)
      simpa using this
    simp only [List.cons_append, readHeaderLoop, hacc, Bool.false_eq_true, if_false]
    have hstep := ih (acc ++ [x]) rest
      (by
        intro k hk
        have := hno (k + 1) (by simp; omega)
        simpa [List.append_assoc] using this)
      (by
        rw [List.append_assoc]
        simpa using hend)
    exact hstep.trans (by simp [List.append_assoc])

/-- Helper: whatever sizes the scheduler delivers, a body loop that needs
more bytes than the stream still holds ends in `connectionClosed`. -/
theorem readBody_short (sched : Nat → Nat) :
    ∀ (n : Nat) (stream : List Nat), stream.length ≤ n →
      ∀ (i : Nat) (body : List Nat) (need : Int),
        (body.length : Int) + stream.length < need →
        readBody sched i body stream need = Except.error RecvError.connectionClosed := by
  intro n
  induction n with
  | zero =>
    intro stream hlen i body need hlt
    have : stream = [] := List.length_eq_zero.mp (Nat.le_zero.mp hlen)
    subst this
    rw [readBody]
    simp only [List.length_nil] at hlt
    simp [show (body.length : Int) < need by omega]
  | succ n ih =>
    intro stream hlen i body need hlt
    cases stream with
    | nil =>
      rw [readBody]
      simp only [List.length_nil] at hlt
      simp [show (body.length : Int) < need by omega]
    | cons b rest =>
      have hb : (body.length : Int) < need := by
        simp only [List.length_cons] at hlt
        omega
      rw [readBody]
      simp only [hb, dif_pos]
      apply ih
      · simp only [List.length_drop, List.length_cons]
        simp only [List.length_cons] at hlen
        omega
      · have hk1 : 1 ≤ min ((need - (body.length : Int)).toNat)
            (min (b :: rest).length (max 1 (sched i))) := by
          simp only [List.length_cons]
          omega
        have hkle : min ((need - (body.length : Int)).toNat)
            (min (b :: rest).length (max 1 (sched i))) ≤ (b :: rest).length := by
          simp only [List.length_cons]
          omega
        simp only [List.length_append, List.length_take, List.length_drop,
          List.length_cons] at *
        omega

/-- C5: a peer that closes the stream mid-frame makes `_receive_response`
fail with `ConnectionError("Connection closed")`, never returning a
partial or empty envelope — for every delivery schedule: (1) if the bytes
sent before closing never contain the `\r\n\r\n` terminator, the header
loop hits the zero-byte read; (2) if they form exactly a header block
(ASCII, terminator appearing first at its end) whose parsed
`Content-Length` exceeds the bytes that follow — in particular a header
block followed by nothing, with a positive `Content-Length` — the body
loop hits the zero-byte read. -/
theorem receive_fails_on_early_close (sched : Nat → Nat) (stream pre rest : List Nat)
    (L : Int) :
    (containsSeq crlf2 stream = false →
      receiveResponse sched stream = Except.error RecvError.connectionClosed) ∧
    (stream = (pre ++ crlf2) ++ rest →
      containsSeq crlf2 (pre ++ [13, 10, 13]) = false →
      (∀ b ∈ pre, b < 128) →
      findContentLength (splitCRLF (pre ++ crlf2)) = Except.ok L →
      (rest.length : Int) < L →
      receiveResponse sched stream = Except.error RecvError.connectionClosed) := by
  constructor
  · intro h
    unfold receiveResponse
    rw [readHeaderLoop_none stream [] (by simpa using h)]
  · intro hstream hNoEarly _ hfind hshort
    subst hstream
    have hsplit : pre ++ crlf2 = (pre ++ [13, 10, 13]) ++ [10] := by
      simp [crlf2, List.append_assoc]
    have hno : ∀ k, k < (pre ++ crlf2).length →
        containsSeq crlf2 ([] ++ (pre ++ crlf2).take k) = false := by
      intro k hk
      simp only [List.nil_append]
      have hkle : k ≤ (pre ++ [13, 10, 13]).length := by
        simp only [List.length_append, List.length_cons, List.length_nil] at hk ⊢
        simp only [crlf2, List.length_cons, List.length_nil] at hk
        omega
      rw [hsplit, List.take_append_of_le_length hkle]
      cases hc : containsSeq crlf2 ((pre ++ [13, 10, 13]).take k)
      · rfl
      · exfalso
        have := containsSeq_append_right ((pre ++ [13, 10, 13]).take k) crlf2
          ((pre ++ [13, 10, 13]).drop k) hc
        rw [List.take_append_drop] at this
        rw [this] at hNoEarly
        exact Bool.noConfusion hNoEarly
    have hend : containsSeq crlf2 ([] ++ (pre ++ crlf2)) = true := by
      simp only [List.nil_append]
      exact containsSeq_at_end pre crlf2
    have hheader := readHeaderLoop_finds (pre ++ crlf2) [] rest hno hend
    simp only [List.nil_append] at hheader
    unfold receiveResponse
    rw [hheader]
    show (match findContentLength (splitCRLF (pre ++ crlf2)) with
      | Except.error e => Except.error e
      | Except.ok n => readBody sched 0 [] rest n) =
      Except.error RecvError.connectionClosed
    rw [hfind]
    exact readBody_short sched rest.length rest (Nat.le_refl _) 0 [] L (by simpa using hshort)

/-- Witness for C5 at the spec's scenario: the peer sends only the header
block `Content-Length: 10\r\n\r\n` and closes; whatever the scheduler, the
result is the closed-connection error, not a zero-length parse. -/
theorem receive_fails_on_early_close_witness :
    receiveResponse (fun _ => 1) (asciiBytes "Content-Length: 10" ++ crlf2) =
      Except.error RecvError.connectionClosed := by
  have h := (receive_fails_on_early_close (fun _ => 1)
    (asciiBytes "Content-Length: 10" ++ crlf2) (asciiBytes "Content-Length: 10") [] 10).2
  exact h (by simp) (by decide) (by decide) rfl (by decide)
